import Mathlib

/-!
Verification development for the debate-orchestration script `debate_crew.py`
(repository `u1i/crewai-debate`).

Shallow embedding notes:

* Response texts are modelled as `List Char`.  Python's `str.upper()` and
  `str.strip()` are modelled by `pyUpper` and `pyStrip` below via `Char.toUpper`
  and `Char.isWhitespace`; this covers the ASCII fragment, which is all the
  decision logic ever inspects (the literal tokens `"CONTINUE"` / `"DONE"`).
* A CrewAI `Task` is modelled by `DTask`: its `description` string, the `agent`
  role it is bound to, and its `context` list of earlier tasks.  The round
  number in which a task is created is carried as an explicit field (in the
  source it is only embedded in the description text); it is bookkeeping that
  mirrors the "round number" attribute of a Turn.  The constant
  `expected_output` strings, logging, and console printing are omitted: they do
  not influence control flow, contexts, or the transcript.
* The external completion calls are modelled as oracles: `evalText n` is the
  text of `str(result)` produced by the round-`n` crew execution (the crew
  result is the output of its last task, the Moderator evaluation), and
  `summaryText` is the output of the final-summary crew.
* The `while` loop in `main` is modelled by structural recursion on a fuel
  parameter; `main` passes `MAX_ROUNDS + 1` fuel, and the development proves
  that any larger fuel gives the same result (the loop stops because of its own
  condition, never because fuel runs out).
* The dead `last_proponent_task` scan over `previous_tasks` at the top of
  `run_debate_round` (lines 230-235) is not embedded: the variable is
  unconditionally overwritten with the fresh proponent task in both branches of
  the `if` before its first use, so the scan has no observable effect.
  Likewise the truthiness conditional
  `[last_proponent_task] if last_proponent_task else []` (line 291) always
  takes its first branch: at that point `last_proponent_task` is the freshly
  created `Task` object, which is truthy.
-/

/-! ## Python string primitives: `in` (substring), `upper`, `strip` -/

/-- Test whether the needle matches at the very start of the haystack
(a character-by-character left match). -/
def leadMatch : List Char → List Char → Bool
  | [], _ => true
  | _ :: _, [] => false
  | a :: as, b :: bs => a == b && leadMatch as bs

/-- Python's substring test `needle in hay`. -/
def containsSub (needle : List Char) : List Char → Bool
  | [] => leadMatch needle []
  | b :: bs => leadMatch needle (b :: bs) || containsSub needle bs

/-- Python's `str.upper()` (ASCII fragment). -/
def pyUpper (s : List Char) : List Char := s.map Char.toUpper

/-- Python's `str.strip()` (ASCII whitespace fragment): drop leading and
trailing whitespace. -/
def pyStrip (s : List Char) : List Char :=
  ((s.dropWhile Char.isWhitespace).reverse.dropWhile Char.isWhitespace).reverse

/-- The literal token `"CONTINUE"` searched for in the decision text. -/
def CONTINUE_TOKEN : List Char := "CONTINUE".data

/-- The literal token `"DONE"` searched for by the controller. -/
def DONE_TOKEN : List Char := "DONE".data

/-! ## Data model -/

/-- The three agent roles (`Agent.role` strings in the source). -/
inductive Role : Type where
  | Proponent
  | Opponent
  | Moderator
deriving DecidableEq

/-- A CrewAI `Task`: bound agent role, creation round, description text, and
`context` (the list of earlier tasks passed as the `context=` argument; `[]`
models a task created without a `context=` argument). -/
inductive DTask : Type where
  | mk (role : Role) (round_num : Nat) (description : String) (context : List DTask)

def DTask.role : DTask → Role
  | .mk r _ _ _ => r

def DTask.round_num : DTask → Nat
  | .mk _ n _ _ => n

def DTask.description : DTask → String
  | .mk _ _ d _ => d

def DTask.context : DTask → List DTask
  | .mk _ _ _ ctx => ctx

/-! ## Prompt texts (transcribed byte-for-byte from the f-strings in the
source; `{...}` interpolations become `++` concatenation) -/

/-- Proponent opening prompt (round 1), lines 239-249. -/
def proponent_opening_description (topic : String) : String :=
  "Build a strong, well-reasoned opening argument in favor of the following topic:\n            \n            Topic: " ++ topic ++ "\n            \n            This is your opening statement. Your argument should:\n            - Be logically structured and coherent\n            - Include supporting evidence and reasoning\n            - Address potential counterarguments\n            - Be persuasive and compelling\n            \n            Present your complete opening argument clearly and thoroughly."

/-- Proponent rebuttal prompt (round > 1), lines 263-274. -/
def proponent_rebuttal_description (topic : String) (round_num : Nat) : String :=
  "Round " ++ toString round_num ++ ": Defend your position and respond to the Opponent's critique about the following topic:\n            \n            Topic: " ++ topic ++ "\n            \n            The Opponent has challenged your argument. Now you must:\n            - Address their specific criticisms directly\n            - Strengthen your position with additional evidence or reasoning\n            - Refute their counterarguments\n            - Clarify any misunderstandings\n            - Reinforce the strongest points of your case\n            \n            Provide a strong rebuttal that defends and strengthens your position."

/-- Opponent critique prompt, lines 292-304. -/
def opponent_description (topic : String) (round_num : Nat) : String :=
  "Round " ++ toString round_num ++ ": Critically analyze and respond to the Proponent's argument about the following topic:\n        \n        Topic: " ++ topic ++ "\n        \n        Review the Proponent's most recent argument and the full debate history. Consider:\n        - Identify logical fallacies or weak reasoning in their current and previous arguments\n        - Point out unsupported claims or assumptions\n        - Highlight gaps in evidence or reasoning\n        - Note any inconsistencies or contradictions across their statements\n        - Present strong counterarguments\n        - Expose vulnerabilities in their position\n        \n        Provide a detailed critique and counterargument. Be specific and direct in your response."

/-- Moderator evaluation prompt, lines 320-333. -/
def evaluation_description (topic : String) (round_num max_rounds : Nat) : String :=
  "Evaluate the current state of the debate about the following topic:\n        \n        Topic: " ++ topic ++ "\n        \n        You have observed " ++ toString round_num ++ " round(s) of debate. Review the exchange so far and decide:\n        \n        1. Has the debate reached sufficient depth and resolution?\n        2. Are there still important points that need to be addressed?\n        3. Would additional rounds add value, or is the discussion becoming repetitive?\n        \n        IMPORTANT: Respond with ONLY one word: \"CONTINUE\" if more debate is needed, or \"DONE\" if \n        the debate has reached sufficient depth. Maximum rounds allowed: " ++ toString max_rounds ++ ".\n        \n        If this is round " ++ toString max_rounds ++ ", you must respond with \"DONE\"."

/-- Final-summary prompt, lines 425-437. -/
def summary_description (topic : String) : String :=
  "Synthesize the complete debate about the following topic:\n        \n        Topic: " ++ topic ++ "\n        \n        Review the entire debate exchange and write a balanced, comprehensive summary that:\n        - Fairly represents both perspectives across all rounds\n        - Highlights the key points and arguments from each side\n        - Identifies the strengths and weaknesses of each position\n        - Notes how the debate evolved through the rounds\n        - Provides an objective assessment of the overall discussion\n        - Offers insights into which side made stronger points\n        \n        Your summary should be clear, balanced, and useful for understanding the full debate."

/-! ## Round Orchestrator (`run_debate_round`, lines 205-417) -/

/-- One round: build the Proponent task (opening at round 1, rebuttal with
`context=previous_tasks` otherwise), the Opponent task with
`context = previous_tasks + [proponent_task]`, and the Moderator evaluation
task with `context = previous_tasks + tasks`; run the crew (its result text
`result` is supplied by the environment); parse the decision
(`"CONTINUE" in str(result).strip().upper() and round_num < max_rounds`).
Returns `(tasks, should_continue, result)` as the source does. -/
def run_debate_round (topic : String) (round_num : Nat) (previous_tasks : List DTask)
    (max_rounds : Nat) (result : List Char) : List DTask × Bool × List Char :=
  let proponent_task :=
    if round_num = 1 then
      DTask.mk Role.Proponent round_num (proponent_opening_description topic) []
    else
      DTask.mk Role.Proponent round_num (proponent_rebuttal_description topic round_num)
        previous_tasks
  let last_proponent_task := proponent_task
  let opponent_context := previous_tasks ++ [last_proponent_task]
  let opponent_task :=
    DTask.mk Role.Opponent round_num (opponent_description topic round_num) opponent_context
  let tasks := [proponent_task, opponent_task]
  let all_previous_tasks := previous_tasks ++ tasks
  let evaluation_task :=
    DTask.mk Role.Moderator round_num (evaluation_description topic round_num max_rounds)
      all_previous_tasks
  let decision_text := pyUpper (pyStrip result)
  let should_continue := containsSub CONTINUE_TOKEN decision_text && decide (round_num < max_rounds)
  (tasks ++ [evaluation_task], should_continue, result)

/-! ## Debate Controller (`main`, lines 453-615) -/

/-- The two Proponent/Opponent turns a round appends to the running transcript
(`tasks[:-1]`), expressed directly; proven equal to
`(run_debate_round ...).1.dropLast` below. -/
def round_turns (topic : String) (round_num : Nat) (previous_tasks : List DTask) : List DTask :=
  let proponent_task :=
    if round_num = 1 then
      DTask.mk Role.Proponent round_num (proponent_opening_description topic) []
    else
      DTask.mk Role.Proponent round_num (proponent_rebuttal_description topic round_num)
        previous_tasks
  let opponent_task :=
    DTask.mk Role.Opponent round_num (opponent_description topic round_num)
      (previous_tasks ++ [proponent_task])
  [proponent_task, opponent_task]

/-- The transcript accumulated after `n` completed rounds: the Proponent and
Opponent turns of rounds `1..n`, in order (no evaluation tasks). -/
def transcriptThrough (topic : String) : Nat → List DTask
  | 0 => []
  | n + 1 => transcriptThrough topic n ++ round_turns topic (n + 1) (transcriptThrough topic n)

/-- The `while should_continue and round_num <= MAX_ROUNDS` loop of `main`
(lines 497-560), with a fuel parameter for structural recursion.  Each
iteration runs a round, extends the transcript with `tasks[:-1]` (excluding
the evaluation task), and re-checks the moderator decision:
`if "DONE" in decision_text or round_num >= MAX_ROUNDS` stop, else increment
`round_num`. -/
def debate_loop (topic : String) (MAX_ROUNDS : Nat) (evalText : Nat → List Char) :
    Nat → List DTask → Nat → Bool → List DTask × Nat
  | 0, all_debate_tasks, round_num, _ => (all_debate_tasks, round_num)
  | fuel + 1, all_debate_tasks, round_num, should_continue =>
    if should_continue ∧ round_num ≤ MAX_ROUNDS then
      let r := run_debate_round topic round_num all_debate_tasks MAX_ROUNDS (evalText round_num)
      let tasks := r.1
      let sc := r.2.1
      let round_result := r.2.2
      let all_debate_tasks2 := all_debate_tasks ++ tasks.dropLast
      let decision_text := pyUpper (pyStrip round_result)
      if containsSub DONE_TOKEN decision_text = true ∨ MAX_ROUNDS ≤ round_num then
        (all_debate_tasks2, round_num)
      else
        debate_loop topic MAX_ROUNDS evalText fuel all_debate_tasks2 (round_num + 1) sc
    else
      (all_debate_tasks, round_num)

/-- The single final-synthesis task (`create_final_summary_crew`, lines
420-450): one Moderator task whose `context` is the whole accumulated
transcript.  (The round-number bookkeeping field is `0`: the summary task
belongs to no round.) -/
def create_final_summary_crew (topic : String) (all_debate_tasks : List DTask) : DTask :=
  DTask.mk Role.Moderator 0 (summary_description topic) all_debate_tasks

/-- The observable outcome of `main`: the accumulated transcript, the terminal
value of `round_num` (reported as the total round count, line 584), the
final-synthesis task, and the final summary text. -/
structure MainResult where
  all_debate_tasks : List DTask
  round_num : Nat
  summary_task : DTask
  final_summary : List Char

/-- The source's `main` (lines 453-615): start at `round_num = 1` with an empty transcript,
run the loop, then make exactly one final-summary call whose context is the
entire accumulated transcript; its output is the debate result. -/
def debate_main (topic : String) (MAX_ROUNDS : Nat) (evalText : Nat → List Char)
    (summaryText : List Char) : MainResult :=
  let r := debate_loop topic MAX_ROUNDS evalText (MAX_ROUNDS + 1) [] 1 true
  let summary_task := create_final_summary_crew topic r.1
  { all_debate_tasks := r.1
    round_num := r.2
    summary_task := summary_task
    final_summary := summaryText }

/-! ## Concrete response oracles used for evaluating the development on
closed inputs -/

/-- An evaluation response containing both literal tokens. -/
def evalTextBoth : Nat → List Char := fun _ => "CONTINUE DONE".data

/-- A garbage evaluation response containing neither literal token. -/
def evalTextGarbage : Nat → List Char := fun _ => "BANANA".data

/-- Round 1 answers with both tokens, later rounds with garbage. -/
def evalTextC7 : Nat → List Char := fun n => if n = 1 then "CONTINUE DONE".data else "BANANA".data

/-- Round 1 answers with the plain token CONTINUE, later rounds with garbage. -/
def evalTextScenario : Nat → List Char :=
  fun n => if n = 1 then "CONTINUE".data else "BANANA".data

/-! ## Substring lemmas -/

theorem leadMatch_nil_left (l : List Char) : leadMatch [] l = true := by
  cases l <;> rfl

theorem containsSub_nil (l : List Char) : containsSub [] l = true := by
  induction l with
  | nil => rfl
  | cons b bs ih => simp [containsSub, leadMatch_nil_left]

theorem leadMatch_append_right (ns : List Char) : ∀ u v : List Char,
    leadMatch ns u = true → leadMatch ns (u ++ v) = true := by
  induction ns with
  | nil => intro u v _; exact leadMatch_nil_left _
  | cons a as ih =>
    intro u v h
    cases u with
    | nil => simp [leadMatch] at h
    | cons x u' =>
      simp only [List.cons_append, leadMatch, Bool.and_eq_true] at h ⊢
      exact ⟨h.1, ih u' v h.2⟩

theorem containsSub_append_left (ns a l : List Char) :
    containsSub ns l = true → containsSub ns (a ++ l) = true := by
  induction a with
  | nil => intro h; exact h
  | cons c a' ih =>
    intro h
    simp only [List.cons_append, containsSub, Bool.or_eq_true]
    exact Or.inr (ih h)

theorem containsSub_append_right (ns l b : List Char) :
    containsSub ns l = true → containsSub ns (l ++ b) = true := by
  induction l with
  | nil =>
    intro h
    cases ns with
    | nil => exact containsSub_nil _
    | cons n ns' => simp [containsSub, leadMatch] at h
  | cons x xs ih =>
    intro h
    simp only [containsSub, Bool.or_eq_true] at h
    simp only [List.cons_append, containsSub, Bool.or_eq_true]
    rcases h with h | h
    · exact Or.inl (by simpa using leadMatch_append_right ns (x :: xs) b h)
    · exact Or.inr (ih h)

theorem leadMatch_self (x : List Char) : leadMatch x x = true := by
  induction x with
  | nil => rfl
  | cons a as ih => simp [leadMatch, ih]

theorem containsSub_self (x : List Char) : containsSub x x = true := by
  cases x with
  | nil => rfl
  | cons a as => simp [containsSub, leadMatch_self]

/-! ## Whitespace / uppercase interaction -/

theorem toUpper_whitespace {c : Char} (h : c.isWhitespace = true) : c.toUpper = c := by
  simp only [Char.isWhitespace, Bool.or_eq_true, decide_eq_true_eq] at h
  rcases h with ((h | h) | h) | h <;> subst h <;> decide

theorem pyUpper_whitespace {a : List Char} (h : ∀ c ∈ a, c.isWhitespace = true) :
    ∀ c ∈ pyUpper a, c.isWhitespace = true := by
  intro c hc
  simp only [pyUpper, List.mem_map] at hc
  obtain ⟨d, hd, rfl⟩ := hc
  rw [toUpper_whitespace (h d hd)]
  exact h d hd

theorem beq_false_of_ws {n c : Char} (hn : n.isWhitespace = false)
    (hc : c.isWhitespace = true) : (n == c) = false := by
  refine beq_eq_false_iff_ne.mpr ?_
  intro h
  rw [h] at hn
  rw [hn] at hc
  exact Bool.false_ne_true hc

theorem leadMatch_append_ws (ns : List Char) (hns : ∀ c ∈ ns, c.isWhitespace = false) :
    ∀ (u b : List Char), (∀ c ∈ b, c.isWhitespace = true) →
    leadMatch ns (u ++ b) = leadMatch ns u := by
  induction ns with
  | nil => intro u b _; rfl
  | cons n ns' ih =>
    intro u b hb
    cases u with
    | nil =>
      cases b with
      | nil => rfl
      | cons c b' =>
        have hne : (n == c) = false :=
          beq_false_of_ws (hns n (by simp)) (hb c (by simp))
        simp [leadMatch, hne]
    | cons x u' =>
      simp only [List.cons_append, leadMatch, List.append_eq]
      rw [ih (fun c hc => hns c (by simp [hc])) u' b hb]

theorem containsSub_all_ws (ns : List Char) (hns : ∀ c ∈ ns, c.isWhitespace = false)
    (hne : ns ≠ []) : ∀ b : List Char, (∀ c ∈ b, c.isWhitespace = true) →
    containsSub ns b = false := by
  intro b
  induction b with
  | nil =>
    intro _
    cases ns with
    | nil => exact absurd rfl hne
    | cons n ns' => rfl
  | cons c b' ih =>
    intro hb
    obtain ⟨n, ns', rfl⟩ : ∃ n ns', ns = n :: ns' := by
      cases ns with
      | nil => exact absurd rfl hne
      | cons n ns' => exact ⟨n, ns', rfl⟩
    have hne2 : (n == c) = false :=
      beq_false_of_ws (hns n (by simp)) (hb c (by simp))
    simp only [containsSub, leadMatch, hne2, Bool.false_and, Bool.false_or]
    exact ih (fun d hd => hb d (by simp [hd]))

theorem containsSub_append_ws_left (ns : List Char) (hns : ∀ c ∈ ns, c.isWhitespace = false)
    (hne : ns ≠ []) : ∀ (a l : List Char), (∀ c ∈ a, c.isWhitespace = true) →
    containsSub ns (a ++ l) = containsSub ns l := by
  intro a l
  induction a with
  | nil => intro _; rfl
  | cons c a' ih =>
    intro ha
    obtain ⟨n, ns', rfl⟩ : ∃ n ns', ns = n :: ns' := by
      cases ns with
      | nil => exact absurd rfl hne
      | cons n ns' => exact ⟨n, ns', rfl⟩
    have hne2 : (n == c) = false :=
      beq_false_of_ws (hns n (by simp)) (ha c (by simp))
    simp only [List.cons_append, containsSub, leadMatch, hne2, Bool.false_and, Bool.false_or]
    exact ih (fun d hd => ha d (by simp [hd]))

theorem containsSub_append_ws_right (ns : List Char) (hns : ∀ c ∈ ns, c.isWhitespace = false)
    (hne : ns ≠ []) : ∀ (l b : List Char), (∀ c ∈ b, c.isWhitespace = true) →
    containsSub ns (l ++ b) = containsSub ns l := by
  intro l b hb
  induction l with
  | nil =>
    rw [List.nil_append, containsSub_all_ws ns hns hne b hb]
    obtain ⟨n, ns', rfl⟩ : ∃ n ns', ns = n :: ns' := by
      cases ns with
      | nil => exact absurd rfl hne
      | cons n ns' => exact ⟨n, ns', rfl⟩
    rfl
  | cons x xs ih =>
    have h1 : leadMatch ns (x :: (xs ++ b)) = leadMatch ns (x :: xs) := by
      simpa using leadMatch_append_ws ns hns (x :: xs) b hb
    simp only [List.cons_append, containsSub, List.append_eq]
    rw [h1, ih]

theorem pyStrip_decomp (s : List Char) :
    ∃ a b, s = a ++ pyStrip s ++ b
      ∧ (∀ c ∈ a, c.isWhitespace = true) ∧ (∀ c ∈ b, c.isWhitespace = true) := by
  refine ⟨s.takeWhile Char.isWhitespace,
    ((s.dropWhile Char.isWhitespace).reverse.takeWhile Char.isWhitespace).reverse, ?_, ?_, ?_⟩
  · conv_lhs => rw [← List.takeWhile_append_dropWhile (p := Char.isWhitespace) (l := s)]
    rw [List.append_assoc]
    congr 1
    rw [pyStrip]
    conv_lhs =>
      rw [← (s.dropWhile Char.isWhitespace).reverse_reverse,
        ← List.takeWhile_append_dropWhile (p := Char.isWhitespace)
          (l := (s.dropWhile Char.isWhitespace).reverse)]
    rw [List.reverse_append]
  · intro c hc; exact List.mem_takeWhile_imp hc
  · intro c hc
    rw [List.mem_reverse] at hc
    exact List.mem_takeWhile_imp hc

theorem containsSub_pyUpper_pyStrip (ns : List Char) (hns : ∀ c ∈ ns, c.isWhitespace = false)
    (hne : ns ≠ []) (s : List Char) :
    containsSub ns (pyUpper (pyStrip s)) = containsSub ns (pyUpper s) := by
  obtain ⟨a, b, hs, ha, hb⟩ := pyStrip_decomp s
  conv_rhs => rw [hs]
  simp only [pyUpper, List.map_append, List.append_assoc]
  rw [containsSub_append_ws_left ns hns hne (a.map Char.toUpper) _
      (fun c hc => pyUpper_whitespace ha c hc),
    containsSub_append_ws_right ns hns hne (List.map Char.toUpper (pyStrip s))
      (List.map Char.toUpper b) (fun c hc => pyUpper_whitespace hb c hc)]

/-! ## Token facts -/

theorem CONTINUE_TOKEN_not_ws : ∀ c ∈ CONTINUE_TOKEN, c.isWhitespace = false := by decide

theorem CONTINUE_TOKEN_ne_nil : CONTINUE_TOKEN ≠ [] := by decide

/-! ## Round Orchestrator lemmas -/

theorem run_debate_round_decision (topic : String) (round_num : Nat) (previous_tasks : List DTask)
    (max_rounds : Nat) (result : List Char) :
    (run_debate_round topic round_num previous_tasks max_rounds result).2.1
      = (containsSub CONTINUE_TOKEN (pyUpper (pyStrip result))
          && decide (round_num < max_rounds)) := rfl

theorem run_debate_round_result_text (topic : String) (round_num : Nat)
    (previous_tasks : List DTask) (max_rounds : Nat) (result : List Char) :
    (run_debate_round topic round_num previous_tasks max_rounds result).2.2 = result := rfl

theorem run_debate_round_tasks (topic : String) (round_num : Nat) (previous_tasks : List DTask)
    (max_rounds : Nat) (result : List Char) :
    (run_debate_round topic round_num previous_tasks max_rounds result).1
      = round_turns topic round_num previous_tasks
        ++ [DTask.mk Role.Moderator round_num (evaluation_description topic round_num max_rounds)
              (previous_tasks ++ round_turns topic round_num previous_tasks)] := rfl

theorem run_debate_round_dropLast (topic : String) (round_num : Nat) (previous_tasks : List DTask)
    (max_rounds : Nat) (result : List Char) :
    (run_debate_round topic round_num previous_tasks max_rounds result).1.dropLast
      = round_turns topic round_num previous_tasks := rfl

theorem round_turns_length (topic : String) (n : Nat) (prev : List DTask) :
    (round_turns topic n prev).length = 2 := rfl

theorem round_turns_map_role_round (topic : String) (n : Nat) (prev : List DTask) :
    (round_turns topic n prev).map (fun t => (t.role, t.round_num))
      = [(Role.Proponent, n), (Role.Opponent, n)] := by
  by_cases h : n = 1 <;> simp [round_turns, h, DTask.role, DTask.round_num]

/-! ## Transcript lemmas -/

theorem transcriptThrough_length (topic : String) (k : Nat) :
    (transcriptThrough topic k).length = 2 * k := by
  induction k with
  | zero => rfl
  | succ n ih =>
    rw [transcriptThrough, List.length_append, ih, round_turns_length]
    omega

theorem transcriptThrough_map (topic : String) (k : Nat) :
    (transcriptThrough topic k).map (fun t => (t.role, t.round_num))
      = (List.range k).flatMap (fun j => [(Role.Proponent, j + 1), (Role.Opponent, j + 1)]) := by
  induction k with
  | zero => rfl
  | succ n ih =>
    rw [transcriptThrough, List.map_append, ih, List.range_succ, List.flatMap_append,
      round_turns_map_role_round]
    rfl

theorem transcriptThrough_mem (topic : String) (k : Nat) :
    ∀ t ∈ transcriptThrough topic k,
      (t.role = Role.Proponent ∨ t.role = Role.Opponent)
        ∧ 1 ≤ t.round_num ∧ t.round_num ≤ k := by
  intro t ht
  have hm : (t.role, t.round_num) ∈
      (List.range k).flatMap (fun j => [(Role.Proponent, j + 1), (Role.Opponent, j + 1)]) := by
    rw [← transcriptThrough_map]
    exact List.mem_map_of_mem _ ht
  simp only [List.mem_flatMap, List.mem_range, List.mem_cons, List.not_mem_nil, or_false] at hm
  obtain ⟨j, hj, hcase⟩ := hm
  rcases hcase with h | h <;>
    rw [Prod.ext_iff] at h <;>
    obtain ⟨hrole, hround⟩ := h
  · exact ⟨Or.inl hrole, by omega, by omega⟩
  · exact ⟨Or.inr hrole, by omega, by omega⟩

theorem transcript_step (topic : String) (n max_rounds : Nat) (res : List Char) :
    transcriptThrough topic n
      ++ (run_debate_round topic (n + 1) (transcriptThrough topic n) max_rounds res).1.dropLast
      = transcriptThrough topic (n + 1) := by
  rw [run_debate_round_dropLast]
  rfl

/-! ## Debate Controller loop lemmas -/

theorem debate_loop_exit (topic : String) (M : Nat) (evalText : Nat → List Char)
    (fuel : Nat) (all : List DTask) (n : Nat) (sc : Bool)
    (h : ¬ (sc = true ∧ n ≤ M)) :
    debate_loop topic M evalText fuel all n sc = (all, n) := by
  cases fuel with
  | zero => rfl
  | succ f => rw [debate_loop, if_neg h]

theorem debate_loop_step_stop (topic : String) (M : Nat) (evalText : Nat → List Char)
    (fuel : Nat) (all : List DTask) (n : Nat) (hn : n ≤ M)
    (hstop : containsSub DONE_TOKEN (pyUpper (pyStrip (evalText n))) = true ∨ M ≤ n) :
    debate_loop topic M evalText (fuel + 1) all n true
      = (all ++ (run_debate_round topic n all M (evalText n)).1.dropLast, n) := by
  rw [debate_loop, if_pos (⟨rfl, hn⟩ : (true = true) ∧ n ≤ M)]
  dsimp only
  rw [run_debate_round_result_text, if_pos hstop]

theorem debate_loop_step_continue (topic : String) (M : Nat) (evalText : Nat → List Char)
    (fuel : Nat) (all : List DTask) (n : Nat) (hn : n ≤ M)
    (hdone : containsSub DONE_TOKEN (pyUpper (pyStrip (evalText n))) = false)
    (hlt : ¬ M ≤ n) :
    debate_loop topic M evalText (fuel + 1) all n true
      = debate_loop topic M evalText fuel
          (all ++ (run_debate_round topic n all M (evalText n)).1.dropLast) (n + 1)
          (run_debate_round topic n all M (evalText n)).2.1 := by
  rw [debate_loop, if_pos (⟨rfl, hn⟩ : (true = true) ∧ n ≤ M)]
  dsimp only
  rw [run_debate_round_result_text, if_neg]
  simp [hdone, hlt]

/-- Characterization of the controller loop from any reachable state: starting
at round `n` with the transcript of rounds `1..n-1`, the loop returns a
transcript of completed rounds `1..m` and a final round counter `r`, with `m`
bounded by `MAX_ROUNDS`. -/
theorem debate_loop_spec (topic : String) (M : Nat) (evalText : Nat → List Char) :
    ∀ fuel n sc, 1 ≤ n → n - 1 ≤ M → M + 1 ≤ n + fuel →
    ∃ m r, debate_loop topic M evalText fuel (transcriptThrough topic (n - 1)) n sc
        = (transcriptThrough topic m, r)
      ∧ n - 1 ≤ m ∧ m ≤ M ∧ n ≤ r ∧ (r ≤ M ∨ r = n) := by
  intro fuel
  induction fuel with
  | zero =>
    intro n sc h1 h0 h2
    exact ⟨n - 1, n, rfl, Nat.le_refl _, h0, Nat.le_refl _, Or.inr rfl⟩
  | succ f ih =>
    intro n sc h1 h0 h2
    by_cases hsc : sc = true ∧ n ≤ M
    · obtain ⟨hb, hnM⟩ := hsc
      subst hb
      obtain ⟨k, rfl⟩ : ∃ k, n = k + 1 := ⟨n - 1, by omega⟩
      simp only [Nat.add_sub_cancel]
      by_cases hstop :
          containsSub DONE_TOKEN (pyUpper (pyStrip (evalText (k + 1)))) = true ∨ M ≤ k + 1
      · rw [debate_loop_step_stop topic M evalText f _ (k + 1) hnM hstop, transcript_step]
        exact ⟨k + 1, k + 1, rfl, by omega, hnM, by omega, Or.inl hnM⟩
      · push_neg at hstop
        have hdone := eq_false_of_ne_true hstop.1
        rw [debate_loop_step_continue topic M evalText f _ (k + 1) hnM hdone (by omega),
          transcript_step]
        have hrec := ih (k + 2)
          ((run_debate_round topic (k + 1) (transcriptThrough topic k) M (evalText (k + 1))).2.1)
          (by omega) (by omega) (by omega)
        simp only [Nat.add_sub_cancel] at hrec
        obtain ⟨m, r, heq, hb1, hb2, hb3, hb4⟩ := hrec
        refine ⟨m, r, heq, by omega, hb2, by omega, by omega⟩
    · rw [debate_loop_exit topic M evalText (f + 1) _ n sc hsc]
      exact ⟨n - 1, n, rfl, Nat.le_refl _, h0, Nat.le_refl _, Or.inr rfl⟩

/-- With fuel at least `MAX_ROUNDS + 1 - round_num`, the loop's result does not
depend on the fuel: the loop always stops because of its own condition. -/
theorem debate_loop_fuel (topic : String) (M : Nat) (evalText : Nat → List Char) :
    ∀ fuel extra all n sc, M + 1 ≤ n + fuel →
    debate_loop topic M evalText (fuel + extra) all n sc
      = debate_loop topic M evalText fuel all n sc := by
  intro fuel
  induction fuel with
  | zero =>
    intro extra all n sc h
    rw [debate_loop_exit topic M evalText (0 + extra) all n sc (by rintro ⟨-, h2⟩; omega)]
    rfl
  | succ f ih =>
    intro extra all n sc h
    rw [show f + 1 + extra = (f + extra) + 1 by omega]
    by_cases hsc : sc = true ∧ n ≤ M
    · obtain ⟨hb, hnM⟩ := hsc
      subst hb
      by_cases hstop : containsSub DONE_TOKEN (pyUpper (pyStrip (evalText n))) = true ∨ M ≤ n
      · rw [debate_loop_step_stop topic M evalText (f + extra) all n hnM hstop,
          debate_loop_step_stop topic M evalText f all n hnM hstop]
      · push_neg at hstop
        have hdone := eq_false_of_ne_true hstop.1
        rw [debate_loop_step_continue topic M evalText (f + extra) all n hnM hdone (by omega),
          debate_loop_step_continue topic M evalText f all n hnM hdone (by omega)]
        exact ih extra _ (n + 1) _ (by omega)
    · rw [debate_loop_exit topic M evalText (f + extra + 1) all n sc hsc,
        debate_loop_exit topic M evalText (f + 1) all n sc hsc]

/-! ## Projections of the modelled `main` -/

theorem debate_main_tasks (topic : String) (M : Nat) (evalText : Nat → List Char)
    (summaryText : List Char) :
    (debate_main topic M evalText summaryText).all_debate_tasks
      = (debate_loop topic M evalText (M + 1) [] 1 true).1 := rfl

theorem debate_main_round_num (topic : String) (M : Nat) (evalText : Nat → List Char)
    (summaryText : List Char) :
    (debate_main topic M evalText summaryText).round_num
      = (debate_loop topic M evalText (M + 1) [] 1 true).2 := rfl

theorem debate_main_summary_task (topic : String) (M : Nat) (evalText : Nat → List Char)
    (summaryText : List Char) :
    (debate_main topic M evalText summaryText).summary_task
      = create_final_summary_crew topic (debate_loop topic M evalText (M + 1) [] 1 true).1 := rfl

theorem debate_main_summary_context (topic : String) (M : Nat) (evalText : Nat → List Char)
    (summaryText : List Char) :
    (debate_main topic M evalText summaryText).summary_task.context
      = (debate_loop topic M evalText (M + 1) [] 1 true).1 := rfl

theorem debate_main_final_summary (topic : String) (M : Nat) (evalText : Nat → List Char)
    (summaryText : List Char) :
    (debate_main topic M evalText summaryText).final_summary = summaryText := rfl

/-! ## Claim C1 -/

/-- C1: the continue/stop decision computed by the Round Orchestrator
(`run_debate_round`) is CONTINUE (`should_continue = true`) if and only if the
uppercased moderator-evaluation response text contains the substring
`"CONTINUE"` and `round_num < max_rounds`; for any other response content, or
once `round_num` has reached `max_rounds`, the decision is DONE (the
biconditional fails), regardless of the text.  (The source also strips
leading/trailing whitespace before uppercasing; the proof shows the strip
cannot affect the substring test.) -/
theorem C1_decision_iff (topic : String) (round_num : Nat) (previous_tasks : List DTask)
    (max_rounds : Nat) (result : List Char) :
    (run_debate_round topic round_num previous_tasks max_rounds result).2.1 = true
      ↔ containsSub CONTINUE_TOKEN (pyUpper result) = true ∧ round_num < max_rounds := by
  rw [run_debate_round_decision, Bool.and_eq_true, decide_eq_true_eq,
    containsSub_pyUpper_pyStrip CONTINUE_TOKEN CONTINUE_TOKEN_not_ws CONTINUE_TOKEN_ne_nil]

/-! ## Claim C2 -/

/-- C2: for every `MAX_ROUNDS >= 1` and every sequence of completion-client
responses, the Debate Controller's loop terminates after at most `MAX_ROUNDS`
rounds: the final transcript is that of some `m <= MAX_ROUNDS` completed
rounds, every transcript entry carries a round number in `1..MAX_ROUNDS`, the
terminal round counter is at most `MAX_ROUNDS`, and giving the loop any
additional fuel does not change its result (the loop stops because of the
controller's own checks, never because the fuel bound is reached). -/
theorem C2_bounded_rounds (topic : String) (MAX_ROUNDS : Nat) (evalText : Nat → List Char)
    (summaryText : List Char) (hM : 1 ≤ MAX_ROUNDS) :
    ∃ m, (debate_main topic MAX_ROUNDS evalText summaryText).all_debate_tasks
          = transcriptThrough topic m
      ∧ m ≤ MAX_ROUNDS
      ∧ (∀ t ∈ (debate_main topic MAX_ROUNDS evalText summaryText).all_debate_tasks,
          1 ≤ t.round_num ∧ t.round_num ≤ MAX_ROUNDS)
      ∧ (debate_main topic MAX_ROUNDS evalText summaryText).round_num ≤ MAX_ROUNDS
      ∧ (∀ extra, debate_loop topic MAX_ROUNDS evalText (MAX_ROUNDS + 1 + extra) [] 1 true
          = debate_loop topic MAX_ROUNDS evalText (MAX_ROUNDS + 1) [] 1 true) := by
  obtain ⟨m, r, heq, hb1, hb2, hb3, hb4⟩ :=
    debate_loop_spec topic MAX_ROUNDS evalText (MAX_ROUNDS + 1) 1 true (by omega) (by omega)
      (by omega)
  have heq' : debate_loop topic MAX_ROUNDS evalText (MAX_ROUNDS + 1) [] 1 true
      = (transcriptThrough topic m, r) := heq
  refine ⟨m, ?_, hb2, ?_, ?_, ?_⟩
  · rw [debate_main_tasks, heq']
  · intro t ht
    rw [debate_main_tasks, heq'] at ht
    have hmem := transcriptThrough_mem topic m t ht
    exact ⟨hmem.2.1, by omega⟩
  · rw [debate_main_round_num, heq']
    exact (by omega : r ≤ MAX_ROUNDS)
  · intro extra
    exact debate_loop_fuel topic MAX_ROUNDS evalText (MAX_ROUNDS + 1) extra [] 1 true (by omega)

/-- Witness for C2 at a concrete input. -/
theorem C2_bounded_rounds_witness :
    1 ≤ 1
    ∧ (∃ m, (debate_main "AI" 1 evalTextGarbage []).all_debate_tasks
          = transcriptThrough "AI" m
      ∧ m ≤ 1
      ∧ (∀ t ∈ (debate_main "AI" 1 evalTextGarbage []).all_debate_tasks,
          1 ≤ t.round_num ∧ t.round_num ≤ 1)
      ∧ (debate_main "AI" 1 evalTextGarbage []).round_num ≤ 1
      ∧ (∀ extra, debate_loop "AI" 1 evalTextGarbage (1 + 1 + extra) [] 1 true
          = debate_loop "AI" 1 evalTextGarbage (1 + 1) [] 1 true)) :=
  ⟨by decide, C2_bounded_rounds "AI" 1 evalTextGarbage [] (by decide)⟩

/-! ## Claim C3 -/

/-- C3: for a round `n + 1 < MAX_ROUNDS` whose evaluation text contains both
the substring CONTINUE (so the Round Orchestrator's decision is CONTINUE, first
conjunct) and the substring DONE, the Debate Controller nevertheless stops
the debate after this round: its own substring check for DONE overrides the
orchestrator's CONTINUE decision, the transcript ends at this round and the
loop exits (second conjunct). -/
theorem C3_controller_done_overrides (topic : String) (MAX_ROUNDS : Nat)
    (evalText : Nat → List Char) (n fuel : Nat)
    (hlt : n + 1 < MAX_ROUNDS)
    (hcont : containsSub CONTINUE_TOKEN (pyUpper (pyStrip (evalText (n + 1)))) = true)
    (hdone : containsSub DONE_TOKEN (pyUpper (pyStrip (evalText (n + 1)))) = true) :
    (run_debate_round topic (n + 1) (transcriptThrough topic n) MAX_ROUNDS
        (evalText (n + 1))).2.1 = true
    ∧ debate_loop topic MAX_ROUNDS evalText (fuel + 1) (transcriptThrough topic n) (n + 1) true
        = (transcriptThrough topic (n + 1), n + 1) := by
  constructor
  · rw [run_debate_round_decision, hcont, Bool.true_and, decide_eq_true_eq]
    omega
  · rw [debate_loop_step_stop topic MAX_ROUNDS evalText fuel _ (n + 1) (by omega)
      (Or.inl hdone), transcript_step]

/-- Witness for C3 at a concrete input. -/
theorem C3_controller_done_overrides_witness :
    (0 + 1 < 3
      ∧ containsSub CONTINUE_TOKEN (pyUpper (pyStrip (evalTextBoth (0 + 1)))) = true
      ∧ containsSub DONE_TOKEN (pyUpper (pyStrip (evalTextBoth (0 + 1)))) = true)
    ∧ ((run_debate_round "AI" (0 + 1) (transcriptThrough "AI" 0) 3
          (evalTextBoth (0 + 1))).2.1 = true
      ∧ debate_loop "AI" 3 evalTextBoth (0 + 1) (transcriptThrough "AI" 0) (0 + 1) true
          = (transcriptThrough "AI" (0 + 1), 0 + 1)) :=
  ⟨⟨by decide, by decide, by decide⟩,
    C3_controller_done_overrides "AI" 3 evalTextBoth 0 0 (by decide) (by decide) (by decide)⟩

/-! ## Claim C4 -/

/-- C4: round numbers in the transcript strictly increase by 1 starting at 1
(first conjunct: the transcript of `k` completed rounds lists exactly a
Proponent turn and an Opponent turn for each round `1..k`, in order, with no
Moderator turn); a round produces exactly Proponent, Opponent and
Moderator-evaluation tasks in that order (second conjunct); appending
`tasks[:-1]` excludes the evaluation turn and extends the transcript of rounds
`1..n` to the transcript of rounds `1..n+1` (third conjunct); and the
controller's accumulated transcript is always of this form
(fourth conjunct). -/
theorem C4_transcript_invariant (topic : String) (k n max_rounds : Nat) (res : List Char)
    (MAX_ROUNDS : Nat) (evalText : Nat → List Char) (summaryText : List Char) :
    ((transcriptThrough topic k).map (fun t => (t.role, t.round_num))
        = (List.range k).flatMap (fun j => [(Role.Proponent, j + 1), (Role.Opponent, j + 1)]))
    ∧ ((run_debate_round topic (n + 1) (transcriptThrough topic n) max_rounds res).1.map
          DTask.role = [Role.Proponent, Role.Opponent, Role.Moderator])
    ∧ (transcriptThrough topic n
        ++ (run_debate_round topic (n + 1) (transcriptThrough topic n) max_rounds res).1.dropLast
        = transcriptThrough topic (n + 1))
    ∧ (∃ m, (debate_main topic MAX_ROUNDS evalText summaryText).all_debate_tasks
          = transcriptThrough topic m) := by
  refine ⟨transcriptThrough_map topic k, ?_, transcript_step topic n max_rounds res, ?_⟩
  · rw [run_debate_round_tasks, List.map_append]
    have h2 : (round_turns topic (n + 1) (transcriptThrough topic n)).map DTask.role
        = [Role.Proponent, Role.Opponent] := by
      by_cases h : n + 1 = 1
      · simp [round_turns, h, DTask.role]
      · simp [round_turns, h, DTask.role]
    rw [h2]
    rfl
  · obtain ⟨m, r, heq, -, -, -, -⟩ :=
      debate_loop_spec topic MAX_ROUNDS evalText (MAX_ROUNDS + 1) 1 true (by omega) (by omega)
        (by omega)
    have heq' : debate_loop topic MAX_ROUNDS evalText (MAX_ROUNDS + 1) [] 1 true
        = (transcriptThrough topic m, r) := heq
    exact ⟨m, by rw [debate_main_tasks, heq']⟩

/-! ## Claim C5 -/

/-- C5: the context passed to the single final-synthesis task after the loop
ends is exactly the accumulated transcript, which is the concatenation, in
round order, of all Proponent and Opponent turns from round 1 through the
terminal round `m` (with `m <= MAX_ROUNDS`), and contains no
Moderator-evaluation turn. -/
theorem C5_final_synthesis_context (topic : String) (MAX_ROUNDS : Nat)
    (evalText : Nat → List Char) (summaryText : List Char) :
    ∃ m, m ≤ MAX_ROUNDS
      ∧ (debate_main topic MAX_ROUNDS evalText summaryText).summary_task.context
          = (debate_main topic MAX_ROUNDS evalText summaryText).all_debate_tasks
      ∧ (debate_main topic MAX_ROUNDS evalText summaryText).all_debate_tasks
          = transcriptThrough topic m
      ∧ ((transcriptThrough topic m).map (fun t => (t.role, t.round_num))
          = (List.range m).flatMap (fun j => [(Role.Proponent, j + 1), (Role.Opponent, j + 1)]))
      ∧ (∀ t ∈ (debate_main topic MAX_ROUNDS evalText summaryText).summary_task.context,
          t.role ≠ Role.Moderator) := by
  obtain ⟨m, r, heq, hb1, hb2, hb3, hb4⟩ :=
    debate_loop_spec topic MAX_ROUNDS evalText (MAX_ROUNDS + 1) 1 true (by omega) (by omega)
      (by omega)
  have heq' : debate_loop topic MAX_ROUNDS evalText (MAX_ROUNDS + 1) [] 1 true
      = (transcriptThrough topic m, r) := heq
  refine ⟨m, hb2, rfl, ?_, transcriptThrough_map topic m, ?_⟩
  · rw [debate_main_tasks, heq']
  · intro t ht
    rw [debate_main_summary_context, heq'] at ht
    have hmem := transcriptThrough_mem topic m t ht
    rcases hmem.1 with h | h <;> rw [h] <;> exact fun hc => Role.noConfusion hc

/-! ## Claim C6 -/

/-- C6: in every round, the Round Orchestrator produces exactly a Proponent
task, an Opponent task and a Moderator evaluation task, and the context passed
to the Opponent's task is the prior transcript followed by the current round's
Proponent task, so the current round's Proponent turn is the last element of
the Opponent's context. -/
theorem C6_opponent_context_last (topic : String) (round_num : Nat)
    (previous_tasks : List DTask) (max_rounds : Nat) (result : List Char) :
    ∃ proponent_task opponent_task evaluation_task,
      (run_debate_round topic round_num previous_tasks max_rounds result).1
          = [proponent_task, opponent_task, evaluation_task]
      ∧ proponent_task.role = Role.Proponent
      ∧ proponent_task.round_num = round_num
      ∧ opponent_task.role = Role.Opponent
      ∧ opponent_task.round_num = round_num
      ∧ evaluation_task.role = Role.Moderator
      ∧ opponent_task.context = previous_tasks ++ [proponent_task]
      ∧ opponent_task.context.getLast? = some proponent_task := by
  refine ⟨_, _, _, rfl, ?_, ?_, rfl, rfl, rfl, rfl, ?_⟩
  · by_cases h : round_num = 1 <;> simp [h, DTask.role]
  · by_cases h : round_num = 1 <;> simp [h, DTask.round_num]
  · simp only [DTask.context]
    exact List.getLast?_concat _

/-! ## Claim C7 -/

/-- C7 counterexample: the claim as stated fails.  With `MAX_ROUNDS = 3`, a
round-1 evaluation text that CONTAINS the substring CONTINUE (namely
"CONTINUE DONE") and a round-2 text containing neither token, the hypotheses
of the claim hold, yet the final-synthesis context does not have 4 turns: the
controller's DONE check fires already in round 1, so the debate stops after
round 1 with a 2-turn context. -/
theorem C7_counterexample :
    (containsSub CONTINUE_TOKEN (pyUpper (pyStrip (evalTextC7 1))) = true
      ∧ containsSub CONTINUE_TOKEN (pyUpper (pyStrip (evalTextC7 2))) = false
      ∧ containsSub DONE_TOKEN (pyUpper (pyStrip (evalTextC7 2))) = false)
    ∧ ¬ ((debate_main "AI" 3 evalTextC7 []).summary_task.context.length = 4)
    ∧ (debate_main "AI" 3 evalTextC7 []).summary_task.context.length = 2 := by
  exact ⟨⟨by decide, by decide, by decide⟩, by decide, by decide⟩

/-- C7 amended: with `MAX_ROUNDS = 3`, if the round-1 evaluation text contains
the substring CONTINUE and does NOT contain the substring DONE, and the
round-2 evaluation text contains neither CONTINUE nor DONE (garbage), then the
debate stops after round 2 and the final-synthesis context is exactly the
4-turn transcript Proponent/Opponent of rounds 1 and 2. -/
theorem C7_amended_scenario (topic : String) (evalText : Nat → List Char)
    (summaryText : List Char)
    (h1c : containsSub CONTINUE_TOKEN (pyUpper (pyStrip (evalText 1))) = true)
    (h1d : containsSub DONE_TOKEN (pyUpper (pyStrip (evalText 1))) = false)
    (h2c : containsSub CONTINUE_TOKEN (pyUpper (pyStrip (evalText 2))) = false)
    (h2d : containsSub DONE_TOKEN (pyUpper (pyStrip (evalText 2))) = false) :
    (debate_main topic 3 evalText summaryText).all_debate_tasks = transcriptThrough topic 2
    ∧ (debate_main topic 3 evalText summaryText).summary_task.context.length = 4
    ∧ ((debate_main topic 3 evalText summaryText).summary_task.context.map
        (fun t => (t.role, t.round_num)))
        = [(Role.Proponent, 1), (Role.Opponent, 1), (Role.Proponent, 2), (Role.Opponent, 2)] := by
  have hloop : debate_loop topic 3 evalText (3 + 1) [] 1 true
      = (transcriptThrough topic 2, 3) := by
    have h0 : ([] : List DTask) = transcriptThrough topic 0 := rfl
    rw [h0, debate_loop_step_continue topic 3 evalText 3 _ 1 (by omega) h1d (by omega)]
    have hstep0 : transcriptThrough topic 0
        ++ (run_debate_round topic 1 (transcriptThrough topic 0) 3 (evalText 1)).1.dropLast
        = transcriptThrough topic 1 := transcript_step topic 0 3 (evalText 1)
    have hsc1 : (run_debate_round topic 1 (transcriptThrough topic 0) 3 (evalText 1)).2.1
        = true := by
      rw [run_debate_round_decision, h1c]
      rfl
    rw [hstep0, hsc1, show (3 : Nat) = 2 + 1 from rfl,
      debate_loop_step_continue topic (2 + 1) evalText 2 _ (1 + 1) (by omega) h2d (by omega)]
    have hstep1 : transcriptThrough topic 1
        ++ (run_debate_round topic (1 + 1) (transcriptThrough topic 1) (2 + 1)
              (evalText (1 + 1))).1.dropLast
        = transcriptThrough topic 2 := transcript_step topic 1 (2 + 1) (evalText (1 + 1))
    have hsc2 : (run_debate_round topic (1 + 1) (transcriptThrough topic 1) (2 + 1)
        (evalText (1 + 1))).2.1 = false := by
      have h2c' : containsSub CONTINUE_TOKEN (pyUpper (pyStrip (evalText (1 + 1)))) = false := h2c
      rw [run_debate_round_decision, h2c']
      rfl
    rw [hstep1, hsc2]
    exact debate_loop_exit topic (2 + 1) evalText 2 (transcriptThrough topic 2) (1 + 1 + 1) false
      (by simp)
  refine ⟨?_, ?_, ?_⟩
  · rw [debate_main_tasks, hloop]
  · rw [debate_main_summary_context, hloop]
    show (transcriptThrough topic 2).length = 4
    rw [transcriptThrough_length]
  · rw [debate_main_summary_context, hloop]
    show (transcriptThrough topic 2).map (fun t => (t.role, t.round_num)) = _
    rw [transcriptThrough_map]
    rfl

/-- Witness for the amended C7 at a concrete input. -/
theorem C7_amended_scenario_witness :
    (containsSub CONTINUE_TOKEN (pyUpper (pyStrip (evalTextScenario 1))) = true
      ∧ containsSub DONE_TOKEN (pyUpper (pyStrip (evalTextScenario 1))) = false
      ∧ containsSub CONTINUE_TOKEN (pyUpper (pyStrip (evalTextScenario 2))) = false
      ∧ containsSub DONE_TOKEN (pyUpper (pyStrip (evalTextScenario 2))) = false)
    ∧ ((debate_main "AI" 3 evalTextScenario []).all_debate_tasks = transcriptThrough "AI" 2
      ∧ (debate_main "AI" 3 evalTextScenario []).summary_task.context.length = 4
      ∧ ((debate_main "AI" 3 evalTextScenario []).summary_task.context.map
          (fun t => (t.role, t.round_num)))
          = [(Role.Proponent, 1), (Role.Opponent, 1), (Role.Proponent, 2), (Role.Opponent, 2)]) :=
  ⟨⟨by decide, by decide, by decide, by decide⟩,
    C7_amended_scenario "AI" evalTextScenario [] (by decide) (by decide) (by decide) (by decide)⟩

/-! ## Claim C8 -/

set_option maxRecDepth 16384 in
/-- C8: the Moderator-evaluation prompt built in every round contains the
instruction demanding exactly one of the two literal tokens CONTINUE or DONE
as the entire response (first conjunct, the full "ONLY one word" sentence),
contains the current round number (second conjunct) and the maximum round
count (third conjunct), and states that reaching the maximum round forces
DONE (fourth conjunct, the full forcing sentence with the interpolated
maximum). -/
theorem C8_evaluation_prompt (topic : String) (round_num max_rounds : Nat) :
    containsSub ("IMPORTANT: Respond with ONLY one word: \"CONTINUE\" if more debate is needed, or \"DONE\" if \n        the debate has reached sufficient depth.").data
        (evaluation_description topic round_num max_rounds).data = true
    ∧ containsSub (toString round_num).data
        (evaluation_description topic round_num max_rounds).data = true
    ∧ containsSub (toString max_rounds).data
        (evaluation_description topic round_num max_rounds).data = true
    ∧ containsSub ("If this is round " ++ toString max_rounds
          ++ ", you must respond with \"DONE\".").data
        (evaluation_description topic round_num max_rounds).data = true := by
  refine ⟨?_, ?_, ?_, ?_⟩
  · rw [evaluation_description,
      show (" round(s) of debate. Review the exchange so far and decide:\n        \n        1. Has the debate reached sufficient depth and resolution?\n        2. Are there still important points that need to be addressed?\n        3. Would additional rounds add value, or is the discussion becoming repetitive?\n        \n        IMPORTANT: Respond with ONLY one word: \"CONTINUE\" if more debate is needed, or \"DONE\" if \n        the debate has reached sufficient depth. Maximum rounds allowed: " : String)
        = " round(s) of debate. Review the exchange so far and decide:\n        \n        1. Has the debate reached sufficient depth and resolution?\n        2. Are there still important points that need to be addressed?\n        3. Would additional rounds add value, or is the discussion becoming repetitive?\n        \n        "
          ++ ("IMPORTANT: Respond with ONLY one word: \"CONTINUE\" if more debate is needed, or \"DONE\" if \n        the debate has reached sufficient depth."
          ++ " Maximum rounds allowed: ") from rfl]
    simp only [String.data_append, List.append_assoc]
    apply containsSub_append_left
    apply containsSub_append_left
    apply containsSub_append_left
    apply containsSub_append_left
    apply containsSub_append_left
    exact containsSub_append_right _ _ _ (containsSub_self _)
  · rw [evaluation_description]
    simp only [String.data_append, List.append_assoc]
    apply containsSub_append_left
    apply containsSub_append_left
    apply containsSub_append_left
    exact containsSub_append_right _ _ _ (containsSub_self _)
  · rw [evaluation_description]
    simp only [String.data_append, List.append_assoc]
    apply containsSub_append_left
    apply containsSub_append_left
    apply containsSub_append_left
    apply containsSub_append_left
    apply containsSub_append_left
    exact containsSub_append_right _ _ _ (containsSub_self _)
  · rw [evaluation_description,
      show (".\n        \n        If this is round " : String)
        = ".\n        \n        " ++ "If this is round " from rfl]
    simp only [String.data_append, List.append_assoc]
    apply containsSub_append_left
    apply containsSub_append_left
    apply containsSub_append_left
    apply containsSub_append_left
    apply containsSub_append_left
    apply containsSub_append_left
    apply containsSub_append_left
    exact containsSub_self _

/-! ## Claim C9 -/

/-- C9: if in round `n + 1` with `n + 1 < MAX_ROUNDS` the evaluation response
text contains neither CONTINUE nor DONE, the controller takes its continue
branch and increments the round counter before the loop exits on the
orchestrator's DONE decision: the loop returns the transcript of the `n + 1`
executed rounds (`2 * (n + 1)` turns, second conjunct) together with terminal
round counter `n + 2`, one greater than the number of rounds actually
executed. -/
theorem C9_round_counter_overshoot (topic : String) (MAX_ROUNDS : Nat)
    (evalText : Nat → List Char) (n fuel : Nat)
    (hlt : n + 1 < MAX_ROUNDS)
    (hcont : containsSub CONTINUE_TOKEN (pyUpper (pyStrip (evalText (n + 1)))) = false)
    (hdone : containsSub DONE_TOKEN (pyUpper (pyStrip (evalText (n + 1)))) = false) :
    debate_loop topic MAX_ROUNDS evalText (fuel + 1) (transcriptThrough topic n) (n + 1) true
        = (transcriptThrough topic (n + 1), n + 2)
    ∧ (transcriptThrough topic (n + 1)).length = 2 * (n + 1) := by
  constructor
  · rw [debate_loop_step_continue topic MAX_ROUNDS evalText fuel _ (n + 1) (by omega) hdone
      (by omega), transcript_step]
    have hsc : (run_debate_round topic (n + 1) (transcriptThrough topic n) MAX_ROUNDS
        (evalText (n + 1))).2.1 = false := by
      rw [run_debate_round_decision, hcont]
      rfl
    rw [hsc]
    exact debate_loop_exit topic MAX_ROUNDS evalText fuel _ (n + 1 + 1) false (by simp)
  · exact transcriptThrough_length topic (n + 1)

/-- Witness for C9 at a concrete input. -/
theorem C9_round_counter_overshoot_witness :
    (0 + 1 < 3
      ∧ containsSub CONTINUE_TOKEN (pyUpper (pyStrip (evalTextGarbage (0 + 1)))) = false
      ∧ containsSub DONE_TOKEN (pyUpper (pyStrip (evalTextGarbage (0 + 1)))) = false)
    ∧ (debate_loop "AI" 3 evalTextGarbage (0 + 1) (transcriptThrough "AI" 0) (0 + 1) true
          = (transcriptThrough "AI" (0 + 1), 0 + 2)
      ∧ (transcriptThrough "AI" (0 + 1)).length = 2 * (0 + 1)) :=
  ⟨⟨by decide, by decide, by decide⟩,
    C9_round_counter_overshoot "AI" 3 evalTextGarbage 0 0 (by decide) (by decide) (by decide)⟩

/-! ## Claim C10 -/

/-- C10: if `MAX_ROUNDS < 1`, the Debate Controller's loop executes zero
rounds (empty transcript, round counter still 1), yet the single
final-synthesis task is still created, with an empty context, and the summary
output is still produced as the debate result. -/
theorem C10_zero_rounds (topic : String) (MAX_ROUNDS : Nat)
    (evalText : Nat → List Char) (summaryText : List Char) (h : MAX_ROUNDS < 1) :
    (debate_main topic MAX_ROUNDS evalText summaryText).all_debate_tasks = []
    ∧ (debate_main topic MAX_ROUNDS evalText summaryText).round_num = 1
    ∧ (debate_main topic MAX_ROUNDS evalText summaryText).summary_task
        = create_final_summary_crew topic []
    ∧ (debate_main topic MAX_ROUNDS evalText summaryText).summary_task.context = []
    ∧ (debate_main topic MAX_ROUNDS evalText summaryText).final_summary = summaryText := by
  have hM : MAX_ROUNDS = 0 := by omega
  subst hM
  have hloop : debate_loop topic 0 evalText (0 + 1) [] 1 true = ([], 1) :=
    debate_loop_exit topic 0 evalText (0 + 1) [] 1 true (by rintro ⟨-, h2⟩; omega)
  refine ⟨?_, ?_, ?_, ?_, rfl⟩
  · rw [debate_main_tasks, hloop]
  · rw [debate_main_round_num, hloop]
  · rw [debate_main_summary_task, hloop]
  · rw [debate_main_summary_context, hloop]

/-- Witness for C10 at a concrete input. -/
theorem C10_zero_rounds_witness :
    0 < 1
    ∧ ((debate_main "AI" 0 evalTextGarbage []).all_debate_tasks = []
      ∧ (debate_main "AI" 0 evalTextGarbage []).round_num = 1
      ∧ (debate_main "AI" 0 evalTextGarbage []).summary_task
          = create_final_summary_crew "AI" []
      ∧ (debate_main "AI" 0 evalTextGarbage []).summary_task.context = []
      ∧ (debate_main "AI" 0 evalTextGarbage []).final_summary = []) :=
  ⟨by decide, C10_zero_rounds "AI" 0 evalTextGarbage [] (by decide)⟩
